import Mathlib

/-!
# Graphic item properties dialog (pcbnew)

A shallow embedding of `DIALOG_GRAPHIC_ITEM_PROPERTIES` from
`pcbnew/dialogs/dialog_graphic_item_properties.cpp`: the three overridden
methods `TransferDataToWindow`, `TransferDataFromWindow` and `Validate`,
written as functions on an explicit dialog state.  Two smaller classes follow:
the grid cell editor `GRID_CELL_TEXT_BUTTON` and the dialog shell
`DIALOG_EDIT_LIBRARY_TABLES`.

Conventions.
* C++ `int` values are `Int`.  The only arithmetic on them is the point
  addition in the circle branch of `TransferDataFromWindow`; signed overflow
  is undefined behaviour there, and the embedding returns `none` for it.
* A run that dereferences a null `m_item` has no defined behaviour either
  and is `none` as well.
* `double` values (`m_AngleValue`, the angle of the item) are rationals.
* Every call that is visible from outside the dialog (message boxes, drawing,
  the board commit, the writes into the item) is appended to a trace, in
  program order.
-/

namespace KiCad

/-! ## Data model -/

/-- Shape of a graphic item.  The source names `S_SEGMENT`, `S_ARC`, `S_CIRCLE`
and `S_POLYGON`; `S_OTHER` stands for every further enumerator, all of which
take the `default:` branches. -/
inductive STROKE_T
  | S_SEGMENT
  | S_ARC
  | S_CIRCLE
  | S_POLYGON
  | S_OTHER
  deriving DecidableEq, Repr

/-- Integer point, as `wxPoint`. -/
structure wxPoint where
  x : Int
  y : Int
  deriving DecidableEq, Repr

/-- Smallest value of a 32 bit `int`. -/
def INT_MIN : Int := -2147483648

/-- Largest value of a 32 bit `int`. -/
def INT_MAX : Int := 2147483647

/-- Addition of two `int`s; `none` when the sum does not fit. -/
def intAdd (a b : Int) : Option Int :=
  if INT_MIN ≤ a + b ∧ a + b ≤ INT_MAX then some (a + b) else none

/-- Coordinate-wise `operator+` of `wxPoint`. -/
def wxPoint.add (p q : wxPoint) : Option wxPoint :=
  match intAdd p.x q.x, intAdd p.y q.y with
  | some x, some y => some ⟨x, y⟩
  | _, _ => none

/-- Layer number (`LAYER_NUM`, and `PCB_LAYER_ID` after the cast). -/
abbrev LAYER_NUM := Int

/-- Cast of a layer number to the layer enumeration. -/
def ToLAYER_ID (layer : LAYER_NUM) : LAYER_NUM := layer

/-- Modelled from the spec: the class `DRAWSEGMENT` is declared outside the
excerpt; the spec describes it as a record of a line, arc, circle or polygon
with position, angle, width and layer that the dialog mutates in place.  Its
accessors read and write these fields. -/
structure DRAWSEGMENT where
  m_Shape : STROKE_T
  m_Start : wxPoint
  m_End : wxPoint
  m_Angle : ℚ
  m_Width : Int
  m_Layer : LAYER_NUM
  deriving DecidableEq, Repr

/-- Modelled from the spec: `EDGE_MODULE`, a graphic item of a footprint, is a
`DRAWSEGMENT` that also keeps its two points relative to the footprint. -/
structure EDGE_MODULE extends DRAWSEGMENT where
  m_Start0 : wxPoint
  m_End0 : wxPoint
  deriving DecidableEq, Repr

/-- The object behind the `BOARD_ITEM*` given to the constructor. -/
inductive BOARD_ITEM
  | segment (s : DRAWSEGMENT)
  | edge (e : EDGE_MODULE)
  | other
  deriving DecidableEq, Repr

/-- The cast `dynamic_cast<DRAWSEGMENT*>( aItem )`. -/
def BOARD_ITEM.asDRAWSEGMENT : BOARD_ITEM → Option DRAWSEGMENT
  | .segment s => some s
  | .edge e => some e.toDRAWSEGMENT
  | .other => none

/-- The cast `dynamic_cast<EDGE_MODULE*>( aItem )`. -/
def BOARD_ITEM.asEDGE_MODULE : BOARD_ITEM → Option EDGE_MODULE
  | .edge e => some e
  | _ => none

/-- Update of the `DRAWSEGMENT` part of the object, in place. -/
def BOARD_ITEM.update (f : DRAWSEGMENT → DRAWSEGMENT) : BOARD_ITEM → BOARD_ITEM
  | .segment s => .segment (f s)
  | .edge e => .edge { e with toDRAWSEGMENT := f e.toDRAWSEGMENT }
  | .other => .other

/-- The setters `TransferDataFromWindow` calls on the item. -/
inductive Write
  | SetStartX (v : Int)
  | SetStartY (v : Int)
  | SetEnd (p : wxPoint)
  | SetEndX (v : Int)
  | SetEndY (v : Int)
  | SetStart0 (p : wxPoint)
  | SetEnd0 (p : wxPoint)
  | SetWidth (v : Int)
  | SetLayer (l : LAYER_NUM)
  | SetAngle (a : ℚ)
  deriving DecidableEq, Repr

/-- Effect of one setter on the object. -/
def Write.apply : Write → BOARD_ITEM → BOARD_ITEM
  | .SetStartX v, it => it.update fun s => { s with m_Start := ⟨v, s.m_Start.y⟩ }
  | .SetStartY v, it => it.update fun s => { s with m_Start := ⟨s.m_Start.x, v⟩ }
  | .SetEnd p, it => it.update fun s => { s with m_End := p }
  | .SetEndX v, it => it.update fun s => { s with m_End := ⟨v, s.m_End.y⟩ }
  | .SetEndY v, it => it.update fun s => { s with m_End := ⟨s.m_End.x, v⟩ }
  | .SetStart0 p, .edge e => .edge { e with m_Start0 := p }
  | .SetStart0 _, it => it
  | .SetEnd0 p, .edge e => .edge { e with m_End0 := p }
  | .SetEnd0 _, it => it
  | .SetWidth v, it => it.update fun s => { s with m_Width := v }
  | .SetLayer l, it => it.update fun s => { s with m_Layer := l }
  | .SetAngle a, it => it.update fun s => { s with m_Angle := a }

/-- Drawing modes used by the two `Draw` calls. -/
inductive GR_DRAWMODE
  | GR_XOR
  | GR_OR
  deriving DecidableEq, Repr

/-- Calls visible from outside the dialog. -/
inductive Event
  | MessageBox (msg : String)
  | ErrorList (msgs : List String)
  | Confirm (msg : String) (answer : Bool)
  | Modify
  | Draw (mode : GR_DRAWMODE)
  | Set (w : Write)
  | Push (msg : String)
  | SetMsgPanel
  deriving DecidableEq, Repr

/-- A `UNIT_BINDER`: the value its `GetValue` returns and whether the
label, control and unit text it binds are shown. -/
structure UNIT_BINDER where
  value : Int
  shown : Bool
  deriving DecidableEq, Repr

/-- The call `Show( aShow )`. -/
def UNIT_BINDER.Show (b : UNIT_BINDER) (aShow : Bool) : UNIT_BINDER :=
  { b with shown := aShow }

/-- The call `SetValue( aValue )`. -/
def UNIT_BINDER.SetValue (b : UNIT_BINDER) (aValue : Int) : UNIT_BINDER :=
  { b with value := aValue }

/-- The call `GetValue()`. -/
def UNIT_BINDER.GetValue (b : UNIT_BINDER) : Int := b.value

/-- Layer sets handed to `SetNotAllowedLayerSet`. -/
inductive LSET
  | Unset
  | InternalCuMask_with_Edge_Cuts
  | AllCuMask
  deriving DecidableEq, Repr

/-- The layer selector `m_LayerSelectionCtrl`: the layer `GetLayerSelection`
returns, the set of layers it does not offer, and the hotkey flag. -/
structure PCB_LAYER_BOX_SELECTOR where
  selection : LAYER_NUM
  notAllowed : LSET
  hotkeys : Bool
  deriving DecidableEq, Repr

/-- State of the dialog: the edited object, the staged fields and what has
been called so far. -/
structure DIALOG where
  aItem : BOARD_ITEM
  m_DC : Bool
  m_startX : UNIT_BINDER
  m_startY : UNIT_BINDER
  m_endX : UNIT_BINDER
  m_endY : UNIT_BINDER
  m_angle : UNIT_BINDER
  m_thickness : UNIT_BINDER
  m_AngleValue : ℚ
  title : String
  m_startXLabel : String
  m_startYLabel : String
  m_endXLabel : String
  m_endYLabel : String
  m_fgUpperLeftGridSizer : Bool
  m_LayerSelectionCtrl : PCB_LAYER_BOX_SELECTOR
  trace : List Event
  deriving DecidableEq, Repr

/-- What the dialog calls outside the excerpt: the generated base class, the
layer helpers and the user.  `m_AngleValue` is bound to the angle control by a
validator of the base class; in `TransferDataFromWindow` it is read after the
base-class transfer and stands for the value that transfer left in it. -/
structure Env where
  baseValidate : Bool
  baseTransferDataFromWindow : Bool
  baseTransferDataToWindow : Bool
  IsCopperLayer : LAYER_NUM → Bool
  IsOK : Bool
  GetRadius : DRAWSEGMENT → Int
  SetLayerSelection : LSET → LAYER_NUM → Int
  layerOfSelection : Int → LAYER_NUM
  F_SilkS : Int

/-- The member `m_item`. -/
def DIALOG.m_item (d : DIALOG) : Option DRAWSEGMENT := d.aItem.asDRAWSEGMENT

/-- The member `m_moduleItem`. -/
def DIALOG.m_moduleItem (d : DIALOG) : Option EDGE_MODULE := d.aItem.asEDGE_MODULE

/-- Record a call in the trace. -/
def DIALOG.emit (d : DIALOG) (e : Event) : DIALOG :=
  { d with trace := d.trace ++ [e] }

/-- Call a setter on the item: the object changes and the call is recorded. -/
def DIALOG.set (d : DIALOG) (w : Write) : DIALOG :=
  { d with aItem := w.apply d.aItem, trace := d.trace ++ [Event.Set w] }

/-! ## Validate -/

/-- The `switch` of `Validate`: checks that depend on the shape.  The arc case
falls through into the circle case. -/
def typeSpecificChecks (shape : STROKE_T) (d : DIALOG) : List String :=
  match shape with
  | .S_ARC =>
    (if d.m_angle.GetValue = 0 then ["The arc angle cannot be zero."] else [])
      ++ (if d.m_startX.GetValue = d.m_endX.GetValue ∧ d.m_startY.GetValue = d.m_endY.GetValue
          then ["The radius must be greater than zero."] else [])
  | .S_CIRCLE =>
    if d.m_startX.GetValue = d.m_endX.GetValue ∧ d.m_startY.GetValue = d.m_endY.GetValue
    then ["The radius must be greater than zero."] else []
  | .S_POLYGON => []
  | _ =>
    if d.m_startX.GetValue = d.m_endX.GetValue ∧ d.m_startY.GetValue = d.m_endY.GetValue
    then ["The start and end points cannot be the same."] else []

/-- The thickness check of `Validate`. -/
def thicknessCheck (shape : STROKE_T) (d : DIALOG) : List String :=
  let thickness := d.m_thickness.GetValue
  if shape = .S_POLYGON then
    if thickness < 0 then ["The polygon outline thickness must be >= 0."] else []
  else
    if thickness ≤ 0 then ["The item thickness must be greater than zero."] else []

/-- Outcome of a run of `Validate`: the value returned, the final content of
the local `error_msgs`, and the dialog afterwards. -/
structure ValidateRun where
  ret : Bool
  error_msgs : List String
  dlg : DIALOG
  deriving DecidableEq, Repr

/-- The method `DIALOG_GRAPHIC_ITEM_PROPERTIES::Validate`. -/
def Validate (env : Env) (d : DIALOG) : Option ValidateRun :=
  if env.baseValidate = false then
    some ⟨false, [], d⟩
  else
    match d.m_item with
    | none => none
    | some item =>
      let error_msgs := typeSpecificChecks item.m_Shape d ++ thicknessCheck item.m_Shape d
      let d1 := if error_msgs.length ≠ 0 then d.emit (.ErrorList error_msgs) else d
      some ⟨error_msgs.length == 0, error_msgs, d1⟩

/-! ## TransferDataFromWindow -/

/-- The opening of the commit in `TransferDataFromWindow`: the item is registered
with the board commit, erased from the screen when there is a device
context, and its start point is written. -/
def beginCommit (d : DIALOG) : DIALOG :=
  let d := d.emit .Modify
  let d := if d.m_DC then d.emit (.Draw .GR_XOR) else d
  let d := d.set (.SetStartX d.m_startX.GetValue)
  d.set (.SetStartY d.m_startY.GetValue)

/-- The part of `TransferDataFromWindow` that sets the end point. -/
def setEndPoint (shape : STROKE_T) (d : DIALOG) : Option DIALOG :=
  if shape = .S_CIRCLE then
    match d.m_item with
    | none => none
    | some item =>
      match item.m_Start.add ⟨d.m_endX.GetValue, 0⟩ with
      | none => none
      | some p => some (d.set (.SetEnd p))
  else
    some ((d.set (.SetEndX d.m_endX.GetValue)).set (.SetEndY d.m_endY.GetValue))

/-- The part of `TransferDataFromWindow` for a footprint edge: the relative
points are set from the absolute ones. -/
def setRelativePoints (d : DIALOG) : DIALOG :=
  match d.m_moduleItem with
  | some m => (d.set (.SetStart0 m.m_Start)).set (.SetEnd0 m.m_End)
  | none => d

/-- The closing of the commit in `TransferDataFromWindow`: width, layer and
angle are written, the commit is pushed, the item is drawn again and the
message panel updated. -/
def finishCommit (shape : STROKE_T) (layer : LAYER_NUM) (d : DIALOG) : DIALOG :=
  let d := d.set (.SetWidth d.m_thickness.GetValue)
  let d := d.set (.SetLayer (ToLAYER_ID layer))
  let d := if shape = .S_ARC then d.set (.SetAngle (d.m_AngleValue * 10)) else d
  let d := d.emit (.Push "Modify drawing properties")
  let d := if d.m_DC then d.emit (.Draw .GR_OR) else d
  d.emit .SetMsgPanel

/-- The part of `TransferDataFromWindow` after the copper-layer question: from
the construction of the commit to the end. -/
def commitItem (d : DIALOG) (layer : LAYER_NUM) : Option (Bool × DIALOG) :=
  match d.m_item with
  | none => none
  | some item =>
    match setEndPoint item.m_Shape (beginCommit d) with
    | none => none
    | some d1 => some (true, finishCommit item.m_Shape layer (setRelativePoints d1))

/-- Text of the copper-layer question. -/
def copperQuestion : String :=
  "The graphic item will be on a copper layer.\nThis is very dangerous because DRC does not handle it.\nAre you sure?"

/-- The method `DIALOG_GRAPHIC_ITEM_PROPERTIES::TransferDataFromWindow`. -/
def TransferDataFromWindow (env : Env) (d : DIALOG) : Option (Bool × DIALOG) :=
  if env.baseTransferDataFromWindow = false then
    some (false, d)
  else
    let layer := d.m_LayerSelectionCtrl.selection
    if env.IsCopperLayer layer = true then
      let d1 := d.emit (.Confirm copperQuestion env.IsOK)
      if env.IsOK = false then some (false, d1) else commitItem d1 layer
    else
      commitItem d layer

/-! ## TransferDataToWindow -/

/-- The `switch` of `TransferDataToWindow`: texts according to the shape. -/
def setTexts (item : DRAWSEGMENT) (d : DIALOG) : DIALOG :=
  match item.m_Shape with
  | .S_CIRCLE =>
    { d with
      title := "Circle Properties"
      m_startXLabel := "Center X:"
      m_startYLabel := "Center Y:"
      m_endXLabel := "Radius:"
      m_endY := d.m_endY.Show false }
  | .S_ARC =>
    { d with
      title := "Arc Properties"
      m_startXLabel := "Center X:"
      m_startYLabel := "Center Y:"
      m_endXLabel := "Start Point X:"
      m_endYLabel := "Start Point Y:"
      m_AngleValue := item.m_Angle / 10 }
  | .S_POLYGON =>
    { d with
      title := "Polygon Properties"
      m_fgUpperLeftGridSizer := false }
  | .S_SEGMENT => { d with title := "Line Segment Properties" }
  | _ => d

/-- Text of the message shown when the layer of the item is not offered. -/
def forbiddenLayerMessage : String :=
  "This item was on a forbidden or non-existing layer.\nIt has been moved to the first allowed layer."

/-- The first statement of `TransferDataToWindow` after the null check: only
an arc has an angle, so the angle field is hidden for every other shape. -/
def hideAngle (item : DRAWSEGMENT) (d : DIALOG) : DIALOG :=
  if item.m_Shape ≠ .S_ARC then { d with m_angle := d.m_angle.Show false } else d

/-- The part of `TransferDataToWindow` that fills the coordinate and the
thickness fields. -/
def setValues (env : Env) (item : DRAWSEGMENT) (d : DIALOG) : DIALOG :=
  let d := { d with m_startX := d.m_startX.SetValue item.m_Start.x }
  let d := { d with m_startY := d.m_startY.SetValue item.m_Start.y }
  let d :=
    if item.m_Shape = .S_CIRCLE then
      { d with m_endX := d.m_endX.SetValue (env.GetRadius item) }
    else
      { d with
        m_endX := d.m_endX.SetValue item.m_End.x
        m_endY := d.m_endY.SetValue item.m_End.y }
  { d with m_thickness := d.m_thickness.SetValue item.m_Width }

/-- The part of `TransferDataToWindow` that configures the layer selector. -/
def configureLayers (env : Env) (item : DRAWSEGMENT) (d : DIALOG) : DIALOG :=
  let notAllowed :=
    if d.m_moduleItem.isSome then LSET.InternalCuMask_with_Edge_Cuts else LSET.AllCuMask
  let d := { d with
    m_LayerSelectionCtrl := { d.m_LayerSelectionCtrl with notAllowed := notAllowed, hotkeys := false } }
  if env.SetLayerSelection notAllowed item.m_Layer < 0 then
    { d.emit (.MessageBox forbiddenLayerMessage) with
      m_LayerSelectionCtrl :=
        { d.m_LayerSelectionCtrl with selection := env.layerOfSelection env.F_SilkS } }
  else
    { d with m_LayerSelectionCtrl := { d.m_LayerSelectionCtrl with selection := item.m_Layer } }

/-- The method `DIALOG_GRAPHIC_ITEM_PROPERTIES::TransferDataToWindow`. -/
def TransferDataToWindow (env : Env) (d : DIALOG) : Bool × DIALOG :=
  match d.m_item with
  | none => (false, d)
  | some item =>
    let d := hideAngle item d
    let d := setTexts item d
    let d := setValues env item d
    let d := configureLayers env item d
    (env.baseTransferDataToWindow, d)

/-! ## Reading a trace -/

/-- Whether a call is a write into the item. -/
def Event.isSet : Event → Bool
  | .Set _ => true
  | _ => false

/-- Whether a call belongs to the board commit, that is to the undo history:
the registration of the item or the push. -/
def Event.isCommit : Event → Bool
  | .Modify => true
  | .Push _ => true
  | _ => false

/-- The calls of a trace that reach the undo history. -/
def undoHistory (trace : List Event) : List Event := trace.filter Event.isCommit

/-- Effect of one call on the object: setters write, nothing else does. -/
def Event.apply : Event → BOARD_ITEM → BOARD_ITEM
  | .Set w, it => w.apply it
  | _, it => it

/-- Effect of a sequence of calls on the object, in order. -/
def replay (calls : List Event) (it : BOARD_ITEM) : BOARD_ITEM :=
  calls.foldl (fun acc e => e.apply acc) it

/-- The dialog after a sequence of calls: the object has received the writes
among them and the trace has grown by them; no staged field changes. -/
def DIALOG.run (d : DIALOG) (calls : List Event) : DIALOG :=
  { d with aItem := replay calls d.aItem, trace := d.trace ++ calls }

/-- The end point a commit writes: the staged end fields, or for a circle the
staged centre moved right by the staged radius. -/
def stagedEnd (shape : STROKE_T) (d : DIALOG) : wxPoint :=
  if shape = .S_CIRCLE then ⟨d.m_startX.GetValue + d.m_endX.GetValue, d.m_startY.GetValue⟩
  else ⟨d.m_endX.GetValue, d.m_endY.GetValue⟩

/-- The calls of the commit part of `TransferDataFromWindow` in program order
(from `commit.Modify` to `SetMsgPanel`), for an item of the given shape that
is or is not a footprint edge. -/
def commitCalls (d : DIALOG) (shape : STROKE_T) (isModule : Bool) (layer : LAYER_NUM) :
    List Event :=
  [Event.Modify] ++ (if d.m_DC then [Event.Draw .GR_XOR] else []) ++
    [Event.Set (.SetStartX d.m_startX.GetValue), Event.Set (.SetStartY d.m_startY.GetValue)] ++
    (if shape = .S_CIRCLE then [Event.Set (.SetEnd (stagedEnd shape d))]
      else [Event.Set (.SetEndX d.m_endX.GetValue), Event.Set (.SetEndY d.m_endY.GetValue)]) ++
    (if isModule then
        [Event.Set (.SetStart0 ⟨d.m_startX.GetValue, d.m_startY.GetValue⟩),
          Event.Set (.SetEnd0 (stagedEnd shape d))]
      else []) ++
    [Event.Set (.SetWidth d.m_thickness.GetValue), Event.Set (.SetLayer layer)] ++
    (if shape = .S_ARC then [Event.Set (.SetAngle (d.m_AngleValue * 10))] else []) ++
    [Event.Push "Modify drawing properties"] ++
    (if d.m_DC then [Event.Draw .GR_OR] else []) ++ [Event.SetMsgPanel]

/-! ## Concrete inputs -/

/-- An environment in which the base class accepts everything, the user
answers yes, and the copper layers are the layers 0 to 31. -/
def envPlain : Env where
  baseValidate := true
  baseTransferDataFromWindow := true
  baseTransferDataToWindow := true
  IsCopperLayer := fun l => decide (0 ≤ l ∧ l ≤ 31)
  IsOK := true
  GetRadius := fun s => Int.natAbs (s.m_End.x - s.m_Start.x)
  SetLayerSelection := fun _ l => l
  layerOfSelection := fun i => i
  F_SilkS := 37

/-- A graphic item of the given shape on layer 40 (a drawing layer), from
(1000000, 0) to (3000000, 0), width 150000, angle 90 degrees. -/
def sampleItem (shape : STROKE_T) : DRAWSEGMENT where
  m_Shape := shape
  m_Start := ⟨1000000, 0⟩
  m_End := ⟨3000000, 0⟩
  m_Angle := 900
  m_Width := 150000
  m_Layer := 40

/-- A dialog on the given object with every field shown and nothing staged. -/
def sampleDialog (aItem : BOARD_ITEM) : DIALOG where
  aItem := aItem
  m_DC := false
  m_startX := ⟨0, true⟩
  m_startY := ⟨0, true⟩
  m_endX := ⟨0, true⟩
  m_endY := ⟨0, true⟩
  m_angle := ⟨0, true⟩
  m_thickness := ⟨0, true⟩
  m_AngleValue := 0
  title := ""
  m_startXLabel := "Start Point X:"
  m_startYLabel := "Start Point Y:"
  m_endXLabel := "End Point X:"
  m_endYLabel := "End Point Y:"
  m_fgUpperLeftGridSizer := true
  m_LayerSelectionCtrl := ⟨40, LSET.Unset, true⟩
  trace := []

/-- The user types values into the six fields; the angle is given in tenths
of a degree, as `m_angle.GetValue` returns it, and `m_AngleValue` holds the
same angle in degrees. -/
def DIALOG.stage (d : DIALOG) (startX startY endX endY angle thickness : Int) : DIALOG :=
  { d with
    m_startX := d.m_startX.SetValue startX
    m_startY := d.m_startY.SetValue startY
    m_endX := d.m_endX.SetValue endX
    m_endY := d.m_endY.SetValue endY
    m_angle := d.m_angle.SetValue angle
    m_thickness := d.m_thickness.SetValue thickness
    m_AngleValue := (angle : ℚ) / 10 }

/-- A circle dialog: centre (1000000, 0), radius field 0, thickness 150000. -/
def circleZeroRadius : DIALOG :=
  (sampleDialog (.segment (sampleItem .S_CIRCLE))).stage 1000000 0 0 0 0 150000

/-- A circle dialog: centre (1000000, 0), radius field 1000000, thickness
150000. -/
def circleRadiusEqCentreX : DIALOG :=
  (sampleDialog (.segment (sampleItem .S_CIRCLE))).stage 1000000 0 1000000 0 0 150000

/-- A circle dialog: centre (1000000, 0), radius field 0, thickness 0. -/
def circleZeroRadiusZeroThickness : DIALOG :=
  (sampleDialog (.segment (sampleItem .S_CIRCLE))).stage 1000000 0 0 0 0 0

/-- An arc dialog: centre (0, 0), start point (1000000, 0), angle 90 degrees,
thickness 150000. -/
def arcDialog : DIALOG :=
  (sampleDialog (.segment (sampleItem .S_ARC))).stage 0 0 1000000 0 900 150000

/-- An arc dialog with zero angle, start point equal to the centre and
thickness 0. -/
def arcAllWrong : DIALOG :=
  (sampleDialog (.segment (sampleItem .S_ARC))).stage 0 0 0 0 0 0

/-- A segment dialog: from (0, 0) to (0, 0), thickness 150000. -/
def segmentDialog : DIALOG :=
  (sampleDialog (.segment (sampleItem .S_SEGMENT))).stage 0 0 0 0 0 150000

/-- A segment dialog: from (0, 0) to (0, 0), thickness 0. -/
def segmentAllWrong : DIALOG :=
  (sampleDialog (.segment (sampleItem .S_SEGMENT))).stage 0 0 0 0 0 0

/-- A polygon dialog: start and end both (0, 0), angle 0, thickness 0. -/
def polygonDialog : DIALOG :=
  (sampleDialog (.segment (sampleItem .S_POLYGON))).stage 0 0 0 0 0 0

/-- A circle dialog: centre (1000000, 0), radius field 500000, thickness
150000, on a device context. -/
def circleDialog : DIALOG :=
  { (sampleDialog (.segment (sampleItem .S_CIRCLE))).stage 1000000 0 500000 0 0 150000 with
    m_DC := true }

/-- Whether a call is the copper-layer question. -/
def Event.isConfirm : Event → Bool
  | .Confirm _ _ => true
  | _ => false

/-- Whether a call writes one of the two footprint-relative points. -/
def Event.isRelativeSet : Event → Bool
  | .Set (.SetStart0 _) => true
  | .Set (.SetEnd0 _) => true
  | _ => false

/-- The environment `envPlain` with a user who answers no. -/
def envDecline : Env := { envPlain with IsOK := false }

/-- A segment dialog from (0, 0) to (2000000, 0), thickness 150000, with the
front copper layer (layer 0) selected. -/
def copperDialog : DIALOG :=
  { (sampleDialog (.segment (sampleItem .S_SEGMENT))).stage 0 0 2000000 0 0 150000 with
    m_LayerSelectionCtrl := ⟨0, LSET.Unset, true⟩ }

/-- A footprint edge of the given shape, with relative points (0, 0) and
(2000000, 0). -/
def sampleEdge (shape : STROKE_T) : EDGE_MODULE where
  toDRAWSEGMENT := sampleItem shape
  m_Start0 := ⟨0, 0⟩
  m_End0 := ⟨2000000, 0⟩

/-- A dialog on a footprint circle: centre (1000000, 0), radius field 500000,
thickness 150000. -/
def edgeCircleDialog : DIALOG :=
  (sampleDialog (.edge (sampleEdge .S_CIRCLE))).stage 1000000 0 500000 0 0 150000

/-! ## Grid cell editor with a text field and a button -/

/-- The editor `GRID_CELL_TEXT_BUTTON` of `common/widgets/grid_text_button_helpers.cpp`:
the stored value `m_value`, the text of the combo control, the flag `BeginEdit`
sets on the event handler and whether the control has the focus. -/
structure GRID_CELL_TEXT_BUTTON where
  m_value : String
  comboValue : String
  inSetFocus : Bool
  comboFocus : Bool
  deriving DecidableEq, Repr

/-- The method `GRID_CELL_TEXT_BUTTON::GetValue`. -/
def GRID_CELL_TEXT_BUTTON.GetValue (e : GRID_CELL_TEXT_BUTTON) : String := e.comboValue

/-- The method `GRID_CELL_TEXT_BUTTON::BeginEdit`; `table` is the lookup
`aGrid->GetTable()->GetValue`. -/
def GRID_CELL_TEXT_BUTTON.BeginEdit (e : GRID_CELL_TEXT_BUTTON) (aRow aCol : Int)
    (table : Int → Int → String) : GRID_CELL_TEXT_BUTTON :=
  let e := { e with inSetFocus := true }
  let e := { e with m_value := table aRow aCol }
  let e := { e with comboValue := e.m_value }
  { e with comboFocus := true }

/-- The method `GRID_CELL_TEXT_BUTTON::EndEdit`.  The pointer `aNewVal` is
`none` when null and otherwise holds the string it points to; the result is
the value returned, the editor afterwards and the string behind `aNewVal`
afterwards. -/
def GRID_CELL_TEXT_BUTTON.EndEdit (e : GRID_CELL_TEXT_BUTTON) (aNewVal : Option String) :
    Bool × GRID_CELL_TEXT_BUTTON × Option String :=
  let value := e.comboValue
  if value = e.m_value then
    (false, e, aNewVal)
  else
    let e := { e with m_value := value }
    match aNewVal with
    | some _ => (true, e, some value)
    | none => (true, e, none)

/-- An editor that stores `R1` while its control shows `R2`. -/
def editedCell : GRID_CELL_TEXT_BUTTON where
  m_value := "R1"
  comboValue := "R2"
  inSetFocus := true
  comboFocus := true

/-! ## Dialog shell for editing library tables -/

/-- Calls the library-tables dialog makes when it transfers data. -/
inductive TableCall
  | DIALOG_SHIM_TransferDataToWindow
  | contentPanel_TransferDataToWindow
  | DIALOG_SHIM_TransferDataFromWindow
  | contentPanel_TransferDataFromWindow
  deriving DecidableEq, Repr

/-- A content panel, as far as the dialog uses it: what its two transfer
methods return. -/
structure wxPanel where
  TransferDataToWindow : Bool
  TransferDataFromWindow : Bool
  deriving DecidableEq, Repr

/-- The base class `DIALOG_SHIM`, as far as the dialog uses it: what its two
transfer methods return. -/
structure DIALOG_SHIM where
  TransferDataToWindow : Bool
  TransferDataFromWindow : Bool
  deriving DecidableEq, Repr

/-- State of `DIALOG_EDIT_LIBRARY_TABLES` of
`common/dialogs/dialog_edit_library_tables.cpp`; `m_contentPanel` is `none`
until a panel is installed, and `calls` records the transfer calls made. -/
structure DIALOG_EDIT_LIBRARY_TABLES where
  aTitle : String
  m_GlobalTableChanged : Bool
  m_ProjectTableChanged : Bool
  m_contentPanel : Option wxPanel
  calls : List TableCall
  deriving DecidableEq, Repr

/-- The constructor of `DIALOG_EDIT_LIBRARY_TABLES`: both flags are
initialised to false and no panel is installed. -/
def DIALOG_EDIT_LIBRARY_TABLES.create (aTitle : String) : DIALOG_EDIT_LIBRARY_TABLES where
  aTitle := aTitle
  m_GlobalTableChanged := false
  m_ProjectTableChanged := false
  m_contentPanel := none
  calls := []

/-- The method `InstallPanel`: the panel becomes the content panel.  The
sizers, the separator line and the buttons it builds hold no state that the
transfer methods read. -/
def DIALOG_EDIT_LIBRARY_TABLES.InstallPanel (d : DIALOG_EDIT_LIBRARY_TABLES) (aPanel : wxPanel) :
    DIALOG_EDIT_LIBRARY_TABLES :=
  { d with m_contentPanel := some aPanel }

/-- The method `DIALOG_EDIT_LIBRARY_TABLES::TransferDataToWindow`; `none` when
it reaches the content panel and none is installed. -/
def DIALOG_EDIT_LIBRARY_TABLES.TransferDataToWindow (d : DIALOG_EDIT_LIBRARY_TABLES)
    (shim : DIALOG_SHIM) : Option (Bool × DIALOG_EDIT_LIBRARY_TABLES) :=
  let d := { d with calls := d.calls ++ [TableCall.DIALOG_SHIM_TransferDataToWindow] }
  if shim.TransferDataToWindow = false then
    some (false, d)
  else
    match d.m_contentPanel with
    | none => none
    | some panel =>
      some (panel.TransferDataToWindow,
        { d with calls := d.calls ++ [TableCall.contentPanel_TransferDataToWindow] })

/-- The method `DIALOG_EDIT_LIBRARY_TABLES::TransferDataFromWindow`; `none`
when it reaches the content panel and none is installed. -/
def DIALOG_EDIT_LIBRARY_TABLES.TransferDataFromWindow (d : DIALOG_EDIT_LIBRARY_TABLES)
    (shim : DIALOG_SHIM) : Option (Bool × DIALOG_EDIT_LIBRARY_TABLES) :=
  let d := { d with calls := d.calls ++ [TableCall.DIALOG_SHIM_TransferDataFromWindow] }
  if shim.TransferDataFromWindow = false then
    some (false, d)
  else
    match d.m_contentPanel with
    | none => none
    | some panel =>
      some (panel.TransferDataFromWindow,
        { d with calls := d.calls ++ [TableCall.contentPanel_TransferDataFromWindow] })

/-- A library-tables dialog with a panel installed whose transfer to the
window succeeds and whose transfer from the window fails. -/
def tablesDialog : DIALOG_EDIT_LIBRARY_TABLES :=
  (DIALOG_EDIT_LIBRARY_TABLES.create "Symbol Libraries").InstallPanel ⟨true, false⟩

/-! ## Validation -/

/-- With the base class satisfied and a graphic item under edit, `Validate`
returns: its result is whether the collected list is empty. -/
theorem Validate_eq (env : Env) (d : DIALOG) (item : DRAWSEGMENT)
    (hbase : env.baseValidate = true) (hitem : d.m_item = some item) :
    Validate env d =
      some ⟨(typeSpecificChecks item.m_Shape d ++ thicknessCheck item.m_Shape d).length == 0,
        typeSpecificChecks item.m_Shape d ++ thicknessCheck item.m_Shape d,
        if (typeSpecificChecks item.m_Shape d ++ thicknessCheck item.m_Shape d).length ≠ 0 then
          d.emit (.ErrorList (typeSpecificChecks item.m_Shape d ++ thicknessCheck item.m_Shape d))
        else d⟩ := by
  simp [Validate, hbase, hitem]

/-- C1: at a circle with centre (1000000, 0), radius field 0 and thickness
150000 `Validate` returns true, and at the same circle with radius field
1000000 it returns false with the radius message: the check compares the
radius field with the centre X field instead of with zero. -/
theorem Validate_circle_compares_radius_with_centre :
    (Validate envPlain circleZeroRadius).map (fun r => r.ret) = some true ∧
    (Validate envPlain circleRadiusEqCentreX).map (fun r => (r.ret, r.error_msgs))
      = some (false, ["The radius must be greater than zero."]) := by
  constructor <;> decide

/-- C2: at a circle with centre (1000000, 0), radius field 0 and thickness
150000 on a drawing layer, `Validate` returns true, `TransferDataFromWindow`
then returns true, and the circle afterwards has its end point equal to its
centre. -/
theorem commit_circle_with_end_eq_centre :
    ∃ r d, Validate envPlain circleZeroRadius = some r ∧ r.ret = true ∧
      TransferDataFromWindow envPlain r.dlg = some (true, d) ∧
      d.m_item.map (fun s => (s.m_Shape, s.m_Start, s.m_End))
        = some (STROKE_T.S_CIRCLE, ⟨1000000, 0⟩, ⟨1000000, 0⟩) :=
  ⟨_, _, rfl, rfl, rfl, by decide⟩

/-- C3: for an arc whose base-class validation passes, `Validate` returns
true exactly when the staged angle is not zero, the staged centre (start
fields) differs from the staged start point (end fields) in a coordinate, and
the staged thickness is positive. -/
theorem Validate_arc_iff (env : Env) (d : DIALOG) (item : DRAWSEGMENT)
    (hbase : env.baseValidate = true) (hitem : d.m_item = some item)
    (hshape : item.m_Shape = STROKE_T.S_ARC) :
    ∃ r, Validate env d = some r ∧
      (r.ret = true ↔
        (d.m_angle.GetValue ≠ 0 ∧
          (d.m_startX.GetValue ≠ d.m_endX.GetValue ∨ d.m_startY.GetValue ≠ d.m_endY.GetValue) ∧
          0 < d.m_thickness.GetValue)) := by
  refine ⟨_, Validate_eq env d item hbase hitem, ?_⟩
  simp only [hshape, typeSpecificChecks, thicknessCheck]
  by_cases h1 : d.m_angle.GetValue = 0 <;>
  by_cases h2 : d.m_startX.GetValue = d.m_endX.GetValue <;>
  by_cases h3 : d.m_startY.GetValue = d.m_endY.GetValue <;>
  by_cases h4 : d.m_thickness.GetValue ≤ 0 <;>
  simp [h1, h2, h3, h4] <;> omega

/-- The arc rule at `arcDialog`, which is accepted. -/
theorem Validate_arc_iff_witness :
    envPlain.baseValidate = true ∧ arcDialog.m_item = some (sampleItem .S_ARC) ∧
      (sampleItem .S_ARC).m_Shape = STROKE_T.S_ARC ∧
      ∃ r, Validate envPlain arcDialog = some r ∧
        (r.ret = true ↔
          (arcDialog.m_angle.GetValue ≠ 0 ∧
            (arcDialog.m_startX.GetValue ≠ arcDialog.m_endX.GetValue ∨
              arcDialog.m_startY.GetValue ≠ arcDialog.m_endY.GetValue) ∧
            0 < arcDialog.m_thickness.GetValue)) :=
  ⟨rfl, rfl, rfl, Validate_arc_iff envPlain arcDialog (sampleItem .S_ARC) rfl rfl rfl⟩

/-- C4: for a line segment, and for every other shape that is not an arc, a
circle or a polygon, whose base-class validation passes, `Validate` returns
true exactly when the staged start differs from the staged end in a
coordinate and the staged thickness is positive. -/
theorem Validate_default_iff (env : Env) (d : DIALOG) (item : DRAWSEGMENT)
    (hbase : env.baseValidate = true) (hitem : d.m_item = some item)
    (harc : item.m_Shape ≠ STROKE_T.S_ARC) (hcircle : item.m_Shape ≠ STROKE_T.S_CIRCLE)
    (hpoly : item.m_Shape ≠ STROKE_T.S_POLYGON) :
    ∃ r, Validate env d = some r ∧
      (r.ret = true ↔
        ((d.m_startX.GetValue ≠ d.m_endX.GetValue ∨ d.m_startY.GetValue ≠ d.m_endY.GetValue) ∧
          0 < d.m_thickness.GetValue)) := by
  refine ⟨_, Validate_eq env d item hbase hitem, ?_⟩
  have hchecks : typeSpecificChecks item.m_Shape d =
      if d.m_startX.GetValue = d.m_endX.GetValue ∧ d.m_startY.GetValue = d.m_endY.GetValue
      then ["The start and end points cannot be the same."] else [] := by
    cases hs : item.m_Shape <;> simp_all [typeSpecificChecks]
  simp only [hchecks, thicknessCheck, if_neg hpoly]
  by_cases h2 : d.m_startX.GetValue = d.m_endX.GetValue <;>
  by_cases h3 : d.m_startY.GetValue = d.m_endY.GetValue <;>
  by_cases h4 : d.m_thickness.GetValue ≤ 0 <;>
  simp [h2, h3, h4] <;> omega

/-- The default rule at `segmentDialog`, which is rejected. -/
theorem Validate_default_iff_witness :
    envPlain.baseValidate = true ∧ segmentDialog.m_item = some (sampleItem .S_SEGMENT) ∧
      (sampleItem .S_SEGMENT).m_Shape ≠ STROKE_T.S_ARC ∧
      (sampleItem .S_SEGMENT).m_Shape ≠ STROKE_T.S_CIRCLE ∧
      (sampleItem .S_SEGMENT).m_Shape ≠ STROKE_T.S_POLYGON ∧
      ∃ r, Validate envPlain segmentDialog = some r ∧
        (r.ret = true ↔
          ((segmentDialog.m_startX.GetValue ≠ segmentDialog.m_endX.GetValue ∨
              segmentDialog.m_startY.GetValue ≠ segmentDialog.m_endY.GetValue) ∧
            0 < segmentDialog.m_thickness.GetValue)) :=
  ⟨rfl, rfl, by decide, by decide, by decide,
    Validate_default_iff envPlain segmentDialog (sampleItem .S_SEGMENT) rfl rfl
      (by decide) (by decide) (by decide)⟩

/-- C5: for a polygon whose base-class validation passes, `Validate` returns
true exactly when the staged thickness is at least zero, whatever the staged
start, end and angle are. -/
theorem Validate_polygon_iff (env : Env) (d : DIALOG) (item : DRAWSEGMENT)
    (hbase : env.baseValidate = true) (hitem : d.m_item = some item)
    (hshape : item.m_Shape = STROKE_T.S_POLYGON) :
    ∃ r, Validate env d = some r ∧ (r.ret = true ↔ 0 ≤ d.m_thickness.GetValue) := by
  refine ⟨_, Validate_eq env d item hbase hitem, ?_⟩
  simp only [hshape, typeSpecificChecks, thicknessCheck]
  by_cases h4 : d.m_thickness.GetValue < 0 <;> simp [h4]
  omega

/-- The polygon rule at `polygonDialog`, which is accepted. -/
theorem Validate_polygon_iff_witness :
    envPlain.baseValidate = true ∧ polygonDialog.m_item = some (sampleItem .S_POLYGON) ∧
      (sampleItem .S_POLYGON).m_Shape = STROKE_T.S_POLYGON ∧
      ∃ r, Validate envPlain polygonDialog = some r ∧
        (r.ret = true ↔ 0 ≤ polygonDialog.m_thickness.GetValue) :=
  ⟨rfl, rfl, rfl, Validate_polygon_iff envPlain polygonDialog (sampleItem .S_POLYGON) rfl rfl rfl⟩

/-! ## Validation: the error list and the frame -/

/-- For every shape but the circle the list `Validate` builds has one message
for each broken rule, in the order angle, start and end, thickness. -/
theorem error_msgs_not_circle (shape : STROKE_T) (d : DIALOG) (hs : shape ≠ STROKE_T.S_CIRCLE) :
    typeSpecificChecks shape d ++ thicknessCheck shape d =
      (if shape = .S_ARC ∧ d.m_angle.GetValue = 0 then ["The arc angle cannot be zero."] else []) ++
      (if shape ≠ .S_POLYGON ∧ d.m_startX.GetValue = d.m_endX.GetValue ∧
          d.m_startY.GetValue = d.m_endY.GetValue then
        [if shape = .S_ARC then "The radius must be greater than zero."
          else "The start and end points cannot be the same."]
        else []) ++
      (if shape = .S_POLYGON then
        (if d.m_thickness.GetValue < 0 then ["The polygon outline thickness must be >= 0."] else [])
        else
        (if d.m_thickness.GetValue ≤ 0 then ["The item thickness must be greater than zero."]
          else [])) := by
  cases shape <;> simp [typeSpecificChecks, thicknessCheck] at hs ⊢

/-- An arc with zero angle, start point equal to the centre and thickness 0
gets three messages, and a segment with start equal to end and thickness 0
gets two. -/
theorem error_msgs_examples :
    (Validate envPlain arcAllWrong).map (fun r => r.error_msgs) =
        some ["The arc angle cannot be zero.", "The radius must be greater than zero.",
          "The item thickness must be greater than zero."] ∧
      (Validate envPlain segmentAllWrong).map (fun r => r.error_msgs) =
        some ["The start and end points cannot be the same.",
          "The item thickness must be greater than zero."] := by
  constructor <;> decide

/-- C6: at a circle with centre (1000000, 0), radius field 0 and thickness 0,
where the radius rule and the thickness rule are both broken, the list
`Validate` builds holds the thickness message only. -/
theorem Validate_circle_misses_radius_message :
    (Validate envPlain circleZeroRadiusZeroThickness).map (fun r => (r.ret, r.error_msgs)) =
      some (false, ["The item thickness must be greater than zero."]) := by
  decide

/-- C7: `Validate` on a dialog that edits a graphic item returns, leaves the
object and the undo history as they were, returns false exactly when its
error list is not empty or the base-class validation failed, and shows the
error list exactly when that list is not empty: then the error-list box is
the one call added, otherwise the dialog is unchanged. -/
theorem Validate_frame (env : Env) (d : DIALOG) (item : DRAWSEGMENT)
    (hitem : d.m_item = some item) :
    ∃ r, Validate env d = some r ∧
      r.dlg.aItem = d.aItem ∧
      undoHistory r.dlg.trace = undoHistory d.trace ∧
      (r.ret = false ↔ (r.error_msgs ≠ [] ∨ env.baseValidate = false)) ∧
      (r.error_msgs ≠ [] → r.dlg = d.emit (.ErrorList r.error_msgs)) ∧
      (r.error_msgs = [] → r.dlg = d) := by
  by_cases hbase : env.baseValidate = false
  · exact ⟨⟨false, [], d⟩, by simp [Validate, hbase], rfl, rfl, by simp [hbase], by simp, by simp⟩
  · simp only [Bool.not_eq_false] at hbase
    refine ⟨_, Validate_eq env d item hbase hitem, ?_⟩
    generalize typeSpecificChecks item.m_Shape d ++ thicknessCheck item.m_Shape d = errs
    cases errs with
    | nil => simp [hbase]
    | cons m ms => simp [hbase, DIALOG.emit, undoHistory, List.filter_append, Event.isCommit]

/-- The frame of `Validate` at `segmentAllWrong`, where two messages are
shown. -/
theorem Validate_frame_witness :
    segmentAllWrong.m_item = some (sampleItem .S_SEGMENT) ∧
      ∃ r, Validate envPlain segmentAllWrong = some r ∧
        r.dlg.aItem = segmentAllWrong.aItem ∧
        undoHistory r.dlg.trace = undoHistory segmentAllWrong.trace ∧
        (r.ret = false ↔ (r.error_msgs ≠ [] ∨ envPlain.baseValidate = false)) ∧
        (r.error_msgs ≠ [] → r.dlg = segmentAllWrong.emit (.ErrorList r.error_msgs)) ∧
        (r.error_msgs = [] → r.dlg = segmentAllWrong) :=
  ⟨rfl, Validate_frame envPlain segmentAllWrong (sampleItem .S_SEGMENT) rfl⟩

/-! ## Commit: helper lemmas -/

/-- The four ways a run of `TransferDataFromWindow` can return. -/
theorem TransferDataFromWindow_cases (env : Env) (d d' : DIALOG) (r : Bool)
    (h : TransferDataFromWindow env d = some (r, d')) :
    (r = false ∧ d' = d ∧ env.baseTransferDataFromWindow = false) ∨
      (r = false ∧ d' = d.emit (.Confirm copperQuestion false) ∧
        env.IsCopperLayer d.m_LayerSelectionCtrl.selection = true ∧ env.IsOK = false) ∨
      (env.IsCopperLayer d.m_LayerSelectionCtrl.selection = true ∧ env.IsOK = true ∧
        commitItem (d.emit (.Confirm copperQuestion true)) d.m_LayerSelectionCtrl.selection
          = some (r, d')) ∨
      (env.IsCopperLayer d.m_LayerSelectionCtrl.selection = false ∧
        commitItem d d.m_LayerSelectionCtrl.selection = some (r, d')) := by
  unfold TransferDataFromWindow at h
  by_cases hb : env.baseTransferDataFromWindow = false
  · simp [hb] at h
    obtain ⟨rfl, rfl⟩ := h
    exact Or.inl ⟨rfl, rfl, hb⟩
  · by_cases hc : env.IsCopperLayer d.m_LayerSelectionCtrl.selection = true
    · by_cases hok : env.IsOK = false
      · simp [hb, hc, hok] at h
        obtain ⟨rfl, rfl⟩ := h
        exact Or.inr (Or.inl ⟨rfl, rfl, hc, hok⟩)
      · simp only [Bool.not_eq_false] at hok
        simp [hb, hc, hok] at h
        exact Or.inr (Or.inr (Or.inl ⟨hc, hok, h⟩))
    · simp [hb, hc] at h
      exact Or.inr (Or.inr (Or.inr ⟨by simpa using hc, h⟩))

/-- A call that is not a setter leaves the object alone. -/
theorem DIALOG.emit_eq_run (d : DIALOG) (e : Event) (h : e.isSet = false) :
    d.emit e = d.run [e] := by
  cases e <;> first | rfl | simp [Event.isSet] at h

/-- A setter call is a run of one call. -/
theorem DIALOG.set_eq_run (d : DIALOG) (w : Write) : d.set w = d.run [Event.Set w] := rfl

/-- Running no call changes nothing. -/
theorem DIALOG.run_nil (d : DIALOG) : d.run [] = d := by
  simp [DIALOG.run, replay]

/-- Two runs in a row are one run. -/
theorem DIALOG.run_run (d : DIALOG) (a b : List Event) : (d.run a).run b = d.run (a ++ b) := by
  simp [DIALOG.run, replay, List.foldl_append]

@[simp]
theorem DIALOG.run_m_DC (d : DIALOG) (a : List Event) : (d.run a).m_DC = d.m_DC := rfl

@[simp]
theorem DIALOG.run_m_startX (d : DIALOG) (a : List Event) :
    (d.run a).m_startX = d.m_startX := rfl

@[simp]
theorem DIALOG.run_m_startY (d : DIALOG) (a : List Event) :
    (d.run a).m_startY = d.m_startY := rfl

@[simp]
theorem DIALOG.run_m_endX (d : DIALOG) (a : List Event) :
    (d.run a).m_endX = d.m_endX := rfl

@[simp]
theorem DIALOG.run_m_endY (d : DIALOG) (a : List Event) :
    (d.run a).m_endY = d.m_endY := rfl

@[simp]
theorem DIALOG.run_m_thickness (d : DIALOG) (a : List Event) :
    (d.run a).m_thickness = d.m_thickness := rfl

@[simp]
theorem DIALOG.run_m_AngleValue (d : DIALOG) (a : List Event) :
    (d.run a).m_AngleValue = d.m_AngleValue := rfl

@[simp]
theorem DIALOG.run_m_LayerSelectionCtrl (d : DIALOG) (a : List Event) :
    (d.run a).m_LayerSelectionCtrl = d.m_LayerSelectionCtrl := rfl

@[simp]
theorem DIALOG.run_aItem (d : DIALOG) (a : List Event) :
    (d.run a).aItem = replay a d.aItem := rfl

@[simp]
theorem DIALOG.run_trace (d : DIALOG) (a : List Event) :
    (d.run a).trace = d.trace ++ a := rfl

/-- The opening of the commit as a run of calls. -/
theorem beginCommit_eq_run (d : DIALOG) :
    beginCommit d = d.run ([Event.Modify] ++ (if d.m_DC then [Event.Draw .GR_XOR] else []) ++
      [Event.Set (.SetStartX d.m_startX.GetValue), Event.Set (.SetStartY d.m_startY.GetValue)]) := by
  unfold beginCommit
  cases hdc : d.m_DC <;>
  simp [DIALOG.emit_eq_run, DIALOG.set_eq_run, DIALOG.run_run, Event.isSet, hdc]

/-- The footprint part of the commit as a run of calls. -/
theorem setRelativePoints_eq_run (d : DIALOG) :
    setRelativePoints d = d.run (match d.m_moduleItem with
      | some m => [Event.Set (.SetStart0 m.m_Start), Event.Set (.SetEnd0 m.m_End)]
      | none => []) := by
  unfold setRelativePoints
  cases d.m_moduleItem <;> simp [DIALOG.set_eq_run, DIALOG.run_run, DIALOG.run_nil]

/-- The closing of the commit as a run of calls. -/
theorem finishCommit_eq_run (shape : STROKE_T) (layer : LAYER_NUM) (d : DIALOG) :
    finishCommit shape layer d =
      d.run ([Event.Set (.SetWidth d.m_thickness.GetValue), Event.Set (.SetLayer layer)] ++
        (if shape = .S_ARC then [Event.Set (.SetAngle (d.m_AngleValue * 10))] else []) ++
        [Event.Push "Modify drawing properties"] ++
        (if d.m_DC then [Event.Draw .GR_OR] else []) ++ [Event.SetMsgPanel]) := by
  unfold finishCommit
  cases hdc : d.m_DC <;> by_cases hs : shape = .S_ARC <;>
  simp [DIALOG.emit_eq_run, DIALOG.set_eq_run, DIALOG.run_run, Event.isSet, hdc, hs, ToLAYER_ID]

/-- Sum of two `int`s when it fits. -/
theorem intAdd_some (a b c : Int) (h : intAdd a b = some c) : c = a + b := by
  unfold intAdd at h
  split at h <;> simp at h
  exact h.symm

/-- Sum of two points when it fits. -/
theorem wxPoint.add_some (p q r : wxPoint) (h : p.add q = some r) :
    r = ⟨p.x + q.x, p.y + q.y⟩ := by
  unfold wxPoint.add at h
  split at h
  · rename_i x y hx hy
    simp at h
    rw [← h, intAdd_some _ _ _ hx, intAdd_some _ _ _ hy]
  · simp at h

/-- Replaying two sequences in a row. -/
theorem replay_append (a b : List Event) (it : BOARD_ITEM) :
    replay (a ++ b) it = replay b (replay a it) := by
  simp [replay, List.foldl_append]

/-- After the opening of the commit the item has the staged start point. -/
theorem m_item_after_begin (d : DIALOG) (cs : List Event) (a b : Int) :
    (d.run (cs ++ [Event.Set (.SetStartX a), Event.Set (.SetStartY b)])).m_item =
      (d.run cs).m_item.map (fun s => { s with m_Start := ⟨a, b⟩ }) := by
  simp only [DIALOG.m_item, DIALOG.run_aItem, replay_append]
  generalize replay cs d.aItem = it
  cases it <;>
    simp [replay, Event.apply, Write.apply, BOARD_ITEM.update, BOARD_ITEM.asDRAWSEGMENT]

/-- The end-point part of the commit as a run of calls. -/
theorem setEndPoint_run (d d1 : DIALOG) (shape : STROKE_T) (cs : List Event)
    (h : setEndPoint shape (d.run (cs ++ [Event.Set (.SetStartX d.m_startX.GetValue),
      Event.Set (.SetStartY d.m_startY.GetValue)])) = some d1) :
    d1 = d.run (cs ++ [Event.Set (.SetStartX d.m_startX.GetValue),
      Event.Set (.SetStartY d.m_startY.GetValue)] ++
      (if shape = .S_CIRCLE then [Event.Set (.SetEnd (stagedEnd shape d))]
        else [Event.Set (.SetEndX d.m_endX.GetValue), Event.Set (.SetEndY d.m_endY.GetValue)])) := by
  unfold setEndPoint at h
  by_cases hs : shape = .S_CIRCLE
  · simp only [hs, if_true, m_item_after_begin] at h ⊢
    cases hi : (d.run cs).m_item with
    | none => simp [hi] at h
    | some item =>
      simp only [hi, Option.map_some'] at h
      split at h
      · simp at h
      · rename_i p hp
        have hp2 := wxPoint.add_some _ _ _ hp
        simp only [DIALOG.run_m_endX, add_zero] at hp2
        simp only [Option.some.injEq] at h
        rw [← h, DIALOG.set_eq_run, DIALOG.run_run, hp2]
        simp [stagedEnd]
  · simp only [hs, if_false, Option.some.injEq] at h ⊢
    rw [← h]
    simp [DIALOG.set_eq_run, DIALOG.run_run]

/-- A successful commit part is the run of `commitCalls`. -/
theorem commitItem_eq_run (d d' : DIALOG) (layer : LAYER_NUM) (r : Bool)
    (h : commitItem d layer = some (r, d')) :
    r = true ∧ ∃ item, d.m_item = some item ∧
      d' = d.run (commitCalls d item.m_Shape d.m_moduleItem.isSome layer) := by
  unfold commitItem at h
  cases hm : d.m_item with
  | none => simp [hm] at h
  | some item =>
    simp only [hm] at h
    rw [beginCommit_eq_run] at h
    split at h
    · simp at h
    · rename_i d1 hse
      have hd1 := setEndPoint_run d d1 item.m_Shape _ hse
      simp only [Option.some.injEq, Prod.mk.injEq] at h
      obtain ⟨rfl, rfl⟩ := h
      refine ⟨rfl, item, rfl, ?_⟩
      rw [setRelativePoints_eq_run, finishCommit_eq_run, DIALOG.run_run, hd1, DIALOG.run_run]
      congr 1
      cases hI : d.aItem with
      | other => simp [DIALOG.m_item, hI, BOARD_ITEM.asDRAWSEGMENT] at hm
      | segment s =>
        cases hdc : d.m_DC <;> by_cases hs : item.m_Shape = .S_CIRCLE <;>
        simp [DIALOG.m_moduleItem, hI, hdc, hs, replay, Event.apply, Write.apply, BOARD_ITEM.update,
          BOARD_ITEM.asEDGE_MODULE, commitCalls, stagedEnd]
      | edge e =>
        cases hdc : d.m_DC <;> by_cases hs : item.m_Shape = .S_CIRCLE <;>
        simp [DIALOG.m_moduleItem, hI, hdc, hs, replay, Event.apply, Write.apply, BOARD_ITEM.update,
          BOARD_ITEM.asEDGE_MODULE, commitCalls, stagedEnd]

/-- The item after the run of `commitCalls`. -/
theorem m_item_after_commitCalls (d : DIALOG) (item : DRAWSEGMENT) (isModule : Bool)
    (layer : LAYER_NUM) (hm : d.m_item = some item) :
    (d.run (commitCalls d item.m_Shape isModule layer)).m_item =
      some { m_Shape := item.m_Shape
             m_Start := ⟨d.m_startX.GetValue, d.m_startY.GetValue⟩
             m_End := stagedEnd item.m_Shape d
             m_Angle := if item.m_Shape = .S_ARC then d.m_AngleValue * 10 else item.m_Angle
             m_Width := d.m_thickness.GetValue
             m_Layer := layer } := by
  obtain ⟨shape, st, en, an, w, la⟩ := item
  simp only [DIALOG.m_item, DIALOG.run_aItem] at hm ⊢
  cases hI : d.aItem with
  | other => simp [hI, BOARD_ITEM.asDRAWSEGMENT] at hm
  | segment s =>
    simp only [hI, BOARD_ITEM.asDRAWSEGMENT, Option.some.injEq] at hm
    subst hm
    cases hdc : d.m_DC <;> cases isModule <;> cases shape <;>
    simp [commitCalls, stagedEnd, replay, Event.apply, Write.apply, BOARD_ITEM.update,
      BOARD_ITEM.asDRAWSEGMENT, hdc]
  | edge e =>
    simp only [hI, BOARD_ITEM.asDRAWSEGMENT, Option.some.injEq] at hm
    obtain ⟨s, s0, e0⟩ := e
    simp only at hm
    subst hm
    cases hdc : d.m_DC <;> cases isModule <;> cases shape <;>
    simp [commitCalls, stagedEnd, replay, Event.apply, Write.apply, BOARD_ITEM.update,
      BOARD_ITEM.asDRAWSEGMENT, hdc]

/-- The order of the calls in `commitCalls`: the registration, then calls that
are neither registration nor push, then the push, then calls that write
nothing. -/
theorem commitCalls_order (d : DIALOG) (shape : STROKE_T) (isModule : Bool) (layer : LAYER_NUM) :
    ∃ mid post msg,
      commitCalls d shape isModule layer = [Event.Modify] ++ mid ++ [Event.Push msg] ++ post ∧
      (∀ e ∈ mid, e.isCommit = false) ∧
      (∀ e ∈ post, e.isSet = false ∧ e.isCommit = false) ∧
      ∀ it, replay (commitCalls d shape isModule layer) it = replay mid it := by
  refine ⟨(if d.m_DC then [Event.Draw .GR_XOR] else []) ++
    [Event.Set (.SetStartX d.m_startX.GetValue), Event.Set (.SetStartY d.m_startY.GetValue)] ++
    (if shape = .S_CIRCLE then [Event.Set (.SetEnd (stagedEnd shape d))]
      else [Event.Set (.SetEndX d.m_endX.GetValue), Event.Set (.SetEndY d.m_endY.GetValue)]) ++
    (if isModule then
        [Event.Set (.SetStart0 ⟨d.m_startX.GetValue, d.m_startY.GetValue⟩),
          Event.Set (.SetEnd0 (stagedEnd shape d))]
      else []) ++
    [Event.Set (.SetWidth d.m_thickness.GetValue), Event.Set (.SetLayer layer)] ++
    (if shape = .S_ARC then [Event.Set (.SetAngle (d.m_AngleValue * 10))] else []),
    (if d.m_DC then [Event.Draw .GR_OR] else []) ++ [Event.SetMsgPanel],
    "Modify drawing properties", ?_, ?_, ?_, ?_⟩
  · simp [commitCalls]
  · cases d.m_DC <;> cases isModule <;> by_cases h1 : shape = .S_CIRCLE <;>
      by_cases h2 : shape = .S_ARC <;> simp [h1, h2, Event.isCommit]
  · cases d.m_DC <;> simp [Event.isCommit, Event.isSet]
  · intro it
    cases hdc : d.m_DC <;> simp [commitCalls, replay, Event.apply, List.foldl_append, hdc]

/-- Calls that are not setters leave the object as it is. -/
theorem replay_noSet (calls : List Event) (it : BOARD_ITEM)
    (h : ∀ e ∈ calls, e.isSet = false) : replay calls it = it := by
  induction calls generalizing it with
  | nil => rfl
  | cons e es ih =>
    have he : e.isSet = false := h e (List.mem_cons_self _ _)
    have hes : ∀ x ∈ es, x.isSet = false := fun x hx => h x (List.mem_cons_of_mem _ hx)
    have step : e.apply it = it := by
      cases e <;> first | rfl | simp [Event.isSet] at he
    show replay es (e.apply it) = it
    rw [step]
    exact ih it hes

/-- The calls of a commit depend on the staged fields only. -/
theorem commitCalls_run (d : DIALOG) (a : List Event) (shape : STROKE_T) (isModule : Bool)
    (layer : LAYER_NUM) :
    commitCalls (d.run a) shape isModule layer = commitCalls d shape isModule layer := rfl

/-- A run of `TransferDataFromWindow` that returns true: an optional
confirmed question, then the calls of the commit. -/
theorem TransferDataFromWindow_true (env : Env) (d d' : DIALOG)
    (h : TransferDataFromWindow env d = some (true, d')) :
    ∃ item pre, d.m_item = some item ∧
      (∀ e ∈ pre, e.isSet = false ∧ e.isCommit = false) ∧
      d' = d.run (pre ++ commitCalls d item.m_Shape d.m_moduleItem.isSome
        d.m_LayerSelectionCtrl.selection) := by
  rcases TransferDataFromWindow_cases env d d' true h with
    ⟨hr, _, _⟩ | ⟨hr, _, _, _⟩ | ⟨_, _, hc⟩ | ⟨_, hc⟩
  · simp at hr
  · simp at hr
  · rw [DIALOG.emit_eq_run d (Event.Confirm copperQuestion true) rfl] at hc
    obtain ⟨_, item, hm, hd'⟩ := commitItem_eq_run _ _ _ _ hc
    refine ⟨item, [Event.Confirm copperQuestion true], hm, ?_, ?_⟩
    · simp [Event.isSet, Event.isCommit]
    · rw [hd', DIALOG.run_run]
      rfl
  · obtain ⟨_, item, hm, hd'⟩ := commitItem_eq_run _ _ _ _ hc
    refine ⟨item, [], hm, ?_, ?_⟩
    · simp
    · simpa using hd'

/-- A run of `TransferDataFromWindow` that returns false made at most the
declined question. -/
theorem TransferDataFromWindow_false (env : Env) (d d' : DIALOG)
    (h : TransferDataFromWindow env d = some (false, d')) :
    d' = d ∨ d' = d.run [Event.Confirm copperQuestion false] := by
  rcases TransferDataFromWindow_cases env d d' false h with
    ⟨_, hd, _⟩ | ⟨_, hd, _, _⟩ | ⟨_, _, hc⟩ | ⟨_, hc⟩
  · exact Or.inl hd
  · exact Or.inr hd
  · have := (commitItem_eq_run _ _ _ _ hc).1
    simp at this
  · have := (commitItem_eq_run _ _ _ _ hc).1
    simp at this

/-! ## Commit -/

/-- C8: whenever `TransferDataFromWindow` returns true the item holds the
staged values: its start is the staged start, its width the staged thickness,
its layer the selected layer, its end the staged end for every shape but the
circle and the start moved right by the staged radius for a circle, and its
angle ten times the staged angle in degrees for an arc and the old angle for
every other shape. -/
theorem TransferDataFromWindow_writes (env : Env) (d d' : DIALOG)
    (h : TransferDataFromWindow env d = some (true, d')) :
    ∃ item item', d.m_item = some item ∧ d'.m_item = some item' ∧
      item'.m_Shape = item.m_Shape ∧
      item'.m_Start = ⟨d.m_startX.GetValue, d.m_startY.GetValue⟩ ∧
      item'.m_Width = d.m_thickness.GetValue ∧
      item'.m_Layer = d.m_LayerSelectionCtrl.selection ∧
      (item.m_Shape ≠ STROKE_T.S_CIRCLE →
        item'.m_End = ⟨d.m_endX.GetValue, d.m_endY.GetValue⟩) ∧
      (item.m_Shape = STROKE_T.S_CIRCLE →
        item'.m_End = ⟨d.m_startX.GetValue + d.m_endX.GetValue, d.m_startY.GetValue⟩) ∧
      (item.m_Shape = STROKE_T.S_ARC → item'.m_Angle = d.m_AngleValue * 10) ∧
      (item.m_Shape ≠ STROKE_T.S_ARC → item'.m_Angle = item.m_Angle) := by
  obtain ⟨item, pre, hm, hpre, rfl⟩ := TransferDataFromWindow_true env d d' h
  have hrep : replay pre d.aItem = d.aItem := replay_noSet pre d.aItem (fun e he => (hpre e he).1)
  have hm2 : (d.run pre).m_item = some item := by
    simp only [DIALOG.m_item, DIALOG.run_aItem, hrep]
    exact hm
  have key := m_item_after_commitCalls (d.run pre) item d.m_moduleItem.isSome
    d.m_LayerSelectionCtrl.selection hm2
  rw [DIALOG.run_run, commitCalls_run] at key
  refine ⟨item, _, hm, key, rfl, rfl, rfl, rfl, ?_, ?_, ?_, ?_⟩
  · intro hs
    simp [stagedEnd, hs]
  · intro hs
    simp [stagedEnd, hs]
  · intro hs
    simp [hs]
  · intro hs
    simp [hs]

/-- The writes of a commit at `circleDialog`: the circle ends at
(1500000, 0). -/
theorem TransferDataFromWindow_writes_witness :
    ∃ d', TransferDataFromWindow envPlain circleDialog = some (true, d') ∧
      ∃ item item', circleDialog.m_item = some item ∧ d'.m_item = some item' ∧
        item'.m_Shape = item.m_Shape ∧
        item'.m_Start = ⟨circleDialog.m_startX.GetValue, circleDialog.m_startY.GetValue⟩ ∧
        item'.m_Width = circleDialog.m_thickness.GetValue ∧
        item'.m_Layer = circleDialog.m_LayerSelectionCtrl.selection ∧
        (item.m_Shape ≠ STROKE_T.S_CIRCLE →
          item'.m_End = ⟨circleDialog.m_endX.GetValue, circleDialog.m_endY.GetValue⟩) ∧
        (item.m_Shape = STROKE_T.S_CIRCLE →
          item'.m_End = ⟨circleDialog.m_startX.GetValue + circleDialog.m_endX.GetValue,
            circleDialog.m_startY.GetValue⟩) ∧
        (item.m_Shape = STROKE_T.S_ARC → item'.m_Angle = circleDialog.m_AngleValue * 10) ∧
        (item.m_Shape ≠ STROKE_T.S_ARC → item'.m_Angle = item.m_Angle) :=
  ⟨_, rfl, TransferDataFromWindow_writes envPlain circleDialog _ rfl⟩

/-- C9: in a run of `TransferDataFromWindow` that returns true the calls made
are: calls that neither write nor touch the commit, the registration
`Modify`, calls among which are all the writes and no commit call, one `Push`,
and calls that neither write nor touch the commit; the object afterwards is
the old one with the writes between `Modify` and `Push` applied.  In a run
that returns false no call writes or touches the commit, and the object is
unchanged. -/
theorem TransferDataFromWindow_commit_order (env : Env) (d d' : DIALOG) (r : Bool)
    (h : TransferDataFromWindow env d = some (r, d')) :
    (r = true → ∃ pre mid post msg,
        d'.trace = d.trace ++ pre ++ [Event.Modify] ++ mid ++ [Event.Push msg] ++ post ∧
        (∀ e ∈ pre, e.isSet = false ∧ e.isCommit = false) ∧
        (∀ e ∈ mid, e.isCommit = false) ∧
        (∀ e ∈ post, e.isSet = false ∧ e.isCommit = false) ∧
        d'.aItem = replay mid d.aItem) ∧
      (r = false → ∃ added,
        d'.trace = d.trace ++ added ∧
        (∀ e ∈ added, e.isSet = false ∧ e.isCommit = false) ∧
        d'.aItem = d.aItem) := by
  constructor
  · intro hr
    subst hr
    obtain ⟨item, pre, _, hpre, rfl⟩ := TransferDataFromWindow_true env d d' h
    obtain ⟨mid, post, msg, hcalls, hmid, hpost, hrep⟩ :=
      commitCalls_order d item.m_Shape d.m_moduleItem.isSome d.m_LayerSelectionCtrl.selection
    refine ⟨pre, mid, post, msg, ?_, hpre, hmid, hpost, ?_⟩
    · simp [hcalls, List.append_assoc]
    · rw [DIALOG.run_aItem, replay_append,
        replay_noSet pre d.aItem (fun e he => (hpre e he).1), hrep]
  · intro hr
    subst hr
    rcases TransferDataFromWindow_false env d d' h with rfl | rfl
    · exact ⟨[], by simp, by simp, rfl⟩
    · exact ⟨[Event.Confirm copperQuestion false], rfl, by simp [Event.isSet, Event.isCommit], rfl⟩

/-- The order of the calls of a commit at `circleDialog`. -/
theorem TransferDataFromWindow_commit_order_witness :
    ∃ d', TransferDataFromWindow envPlain circleDialog = some (true, d') ∧
      (true = true → ∃ pre mid post msg,
        d'.trace = circleDialog.trace ++ pre ++ [Event.Modify] ++ mid ++ [Event.Push msg] ++ post ∧
        (∀ e ∈ pre, e.isSet = false ∧ e.isCommit = false) ∧
        (∀ e ∈ mid, e.isCommit = false) ∧
        (∀ e ∈ post, e.isSet = false ∧ e.isCommit = false) ∧
        d'.aItem = replay mid circleDialog.aItem) ∧
      (true = false → ∃ added,
        d'.trace = circleDialog.trace ++ added ∧
        (∀ e ∈ added, e.isSet = false ∧ e.isCommit = false) ∧
        d'.aItem = circleDialog.aItem) :=
  ⟨_, rfl, TransferDataFromWindow_commit_order envPlain circleDialog _ true rfl⟩

/-! ## Filling the dialog -/

/-- C10: `TransferDataToWindow` returns false and leaves the dialog as it is
when there is no graphic item; otherwise the angle field is hidden unless the
item is an arc, the end-Y field is hidden exactly for a circle, the coordinate
grid is hidden exactly for a polygon, and no other field is hidden or shown:
what is shown afterwards depends on the shape only. -/
theorem TransferDataToWindow_visibility (env : Env) (d : DIALOG) :
    (d.m_item = none → TransferDataToWindow env d = (false, d)) ∧
      (∀ item, d.m_item = some item →
        (TransferDataToWindow env d).2.m_angle.shown =
            (if item.m_Shape = .S_ARC then d.m_angle.shown else false) ∧
          (TransferDataToWindow env d).2.m_endY.shown =
            (if item.m_Shape = .S_CIRCLE then false else d.m_endY.shown) ∧
          (TransferDataToWindow env d).2.m_fgUpperLeftGridSizer =
            (if item.m_Shape = .S_POLYGON then false else d.m_fgUpperLeftGridSizer) ∧
          (TransferDataToWindow env d).2.m_startX.shown = d.m_startX.shown ∧
          (TransferDataToWindow env d).2.m_startY.shown = d.m_startY.shown ∧
          (TransferDataToWindow env d).2.m_endX.shown = d.m_endX.shown ∧
          (TransferDataToWindow env d).2.m_thickness.shown = d.m_thickness.shown) := by
  constructor
  · intro hm
    simp [TransferDataToWindow, hm]
  · intro item hm
    have hconf : ∀ x : DIALOG,
        (configureLayers env item x).m_angle = x.m_angle ∧
        (configureLayers env item x).m_endY = x.m_endY ∧
        (configureLayers env item x).m_fgUpperLeftGridSizer = x.m_fgUpperLeftGridSizer ∧
        (configureLayers env item x).m_startX = x.m_startX ∧
        (configureLayers env item x).m_startY = x.m_startY ∧
        (configureLayers env item x).m_endX = x.m_endX ∧
        (configureLayers env item x).m_thickness = x.m_thickness := by
      intro x
      simp only [configureLayers]
      split_ifs <;> exact ⟨rfl, rfl, rfl, rfl, rfl, rfl, rfl⟩
    have hval : ∀ x : DIALOG,
        (setValues env item x).m_angle = x.m_angle ∧
        (setValues env item x).m_endY.shown = x.m_endY.shown ∧
        (setValues env item x).m_fgUpperLeftGridSizer = x.m_fgUpperLeftGridSizer ∧
        (setValues env item x).m_startX.shown = x.m_startX.shown ∧
        (setValues env item x).m_startY.shown = x.m_startY.shown ∧
        (setValues env item x).m_endX.shown = x.m_endX.shown ∧
        (setValues env item x).m_thickness.shown = x.m_thickness.shown := by
      intro x
      simp only [setValues]
      split_ifs <;> exact ⟨rfl, rfl, rfl, rfl, rfl, rfl, rfl⟩
    simp only [TransferDataToWindow, hm]
    obtain ⟨c1, c2, c3, c4, c5, c6, c7⟩ := hconf (setValues env item (setTexts item (hideAngle item d)))
    obtain ⟨v1, v2, v3, v4, v5, v6, v7⟩ := hval (setTexts item (hideAngle item d))
    rw [c1, c2, c3, c4, c5, c6, c7, v1, v2, v3, v4, v5, v6, v7]
    obtain ⟨shape, st, en, an, w, la⟩ := item
    cases shape <;> simp [setTexts, hideAngle, UNIT_BINDER.Show]

/-- Visibility after filling the dialog for the circle of `circleDialog`. -/
theorem TransferDataToWindow_visibility_witness :
    circleDialog.m_item = some (sampleItem .S_CIRCLE) ∧
      (TransferDataToWindow envPlain circleDialog).2.m_angle.shown = false ∧
      (TransferDataToWindow envPlain circleDialog).2.m_endY.shown = false ∧
      (TransferDataToWindow envPlain circleDialog).2.m_fgUpperLeftGridSizer = true ∧
      (TransferDataToWindow envPlain circleDialog).2.m_startX.shown = true ∧
      (TransferDataToWindow envPlain circleDialog).2.m_startY.shown = true ∧
      (TransferDataToWindow envPlain circleDialog).2.m_endX.shown = true ∧
      (TransferDataToWindow envPlain circleDialog).2.m_thickness.shown = true :=
  ⟨rfl, (TransferDataToWindow_visibility envPlain circleDialog).2 (sampleItem .S_CIRCLE) rfl⟩

/-! ## Commit: the copper-layer question and the footprint points -/

/-- The calls of a commit do not ask the copper-layer question. -/
theorem commitCalls_noConfirm (d : DIALOG) (shape : STROKE_T) (isModule : Bool)
    (layer : LAYER_NUM) : ∀ e ∈ commitCalls d shape isModule layer, e.isConfirm = false := by
  cases hdc : d.m_DC <;> cases isModule <;> by_cases h1 : shape = .S_CIRCLE <;>
    by_cases h2 : shape = .S_ARC <;> simp [commitCalls, hdc, h1, h2, Event.isConfirm]

/-- C11: when the selected layer is a copper layer and the user answers no,
`TransferDataFromWindow` returns false and the object, with its start, end,
angle, width and layer, is unchanged, and so is the undo history; when the
selected layer is not a copper layer, no run that returns has asked the
question. -/
theorem TransferDataFromWindow_declined (env : Env) (d : DIALOG) :
    (env.IsCopperLayer d.m_LayerSelectionCtrl.selection = true → env.IsOK = false →
        ∃ d', TransferDataFromWindow env d = some (false, d') ∧ d'.aItem = d.aItem ∧
          undoHistory d'.trace = undoHistory d.trace) ∧
      (env.IsCopperLayer d.m_LayerSelectionCtrl.selection = false →
        ∀ r d', TransferDataFromWindow env d = some (r, d') →
          ∃ added, d'.trace = d.trace ++ added ∧ ∀ e ∈ added, e.isConfirm = false) := by
  constructor
  · intro hc hok
    by_cases hb : env.baseTransferDataFromWindow = false
    · exact ⟨d, by simp [TransferDataFromWindow, hb], rfl, rfl⟩
    · refine ⟨d.emit (.Confirm copperQuestion env.IsOK),
        by simp [TransferDataFromWindow, hb, hc, hok], rfl, ?_⟩
      simp [DIALOG.emit, undoHistory, List.filter_append, Event.isCommit]
  · intro hc r d' h
    rcases TransferDataFromWindow_cases env d d' r h with
      ⟨_, hd, _⟩ | ⟨_, _, hc', _⟩ | ⟨hc', _, _⟩ | ⟨_, hrun⟩
    · exact ⟨[], by simp [hd], by simp⟩
    · simp [hc] at hc'
    · simp [hc] at hc'
    · obtain ⟨_, item, _, hd'⟩ := commitItem_eq_run _ _ _ _ hrun
      exact ⟨_, by rw [hd', DIALOG.run_trace], commitCalls_noConfirm _ _ _ _⟩

/-- The declined question at `copperDialog`, and a commit on a drawing layer
at `circleDialog`, where nothing is asked. -/
theorem TransferDataFromWindow_declined_witness :
    (∃ d', TransferDataFromWindow envDecline copperDialog = some (false, d') ∧
        d'.aItem = copperDialog.aItem ∧ undoHistory d'.trace = undoHistory copperDialog.trace) ∧
      ∃ d', TransferDataFromWindow envPlain circleDialog = some (true, d') ∧
        ∃ added, d'.trace = circleDialog.trace ++ added ∧ ∀ e ∈ added, e.isConfirm = false :=
  ⟨(TransferDataFromWindow_declined envDecline copperDialog).1 rfl rfl,
    ⟨_, rfl, (TransferDataFromWindow_declined envPlain circleDialog).2 rfl true _ rfl⟩⟩

/-- A call that is not a setter does not write a relative point. -/
theorem Event.isRelativeSet_of_not_isSet (e : Event) (h : e.isSet = false) :
    e.isRelativeSet = false := by
  cases e <;> first | rfl | simp [Event.isSet] at h

/-- The calls of a commit on an item that is not a footprint edge write no
relative point. -/
theorem commitCalls_noRelativeSet (d : DIALOG) (shape : STROKE_T) (layer : LAYER_NUM) :
    ∀ e ∈ commitCalls d shape false layer, e.isRelativeSet = false := by
  cases hdc : d.m_DC <;> by_cases h1 : shape = .S_CIRCLE <;>
    by_cases h2 : shape = .S_ARC <;> simp [commitCalls, hdc, h1, h2, Event.isRelativeSet]

/-- The footprint edge after the run of `commitCalls`. -/
theorem edge_after_commitCalls (d : DIALOG) (m : EDGE_MODULE) (layer : LAYER_NUM) :
    replay (commitCalls d m.m_Shape true layer) (.edge m) =
      .edge { m_Shape := m.m_Shape
              m_Start := ⟨d.m_startX.GetValue, d.m_startY.GetValue⟩
              m_End := stagedEnd m.m_Shape d
              m_Angle := if m.m_Shape = .S_ARC then d.m_AngleValue * 10 else m.m_Angle
              m_Width := d.m_thickness.GetValue
              m_Layer := layer
              m_Start0 := ⟨d.m_startX.GetValue, d.m_startY.GetValue⟩
              m_End0 := stagedEnd m.m_Shape d } := by
  obtain ⟨⟨shape, st, en, an, w, la⟩, s0, e0⟩ := m
  cases hdc : d.m_DC <;> cases shape <;>
    simp [commitCalls, stagedEnd, replay, Event.apply, Write.apply, BOARD_ITEM.update, hdc]

/-- C13: after a run of `TransferDataFromWindow` that returns true on a
footprint edge, the relative points equal the absolute points just written:
`Start0 = Start` and `End0 = End`, where `Start` is the staged start and `End`
is the staged end for every shape but the circle and the staged start moved
right by the staged radius for a circle.  On an item that is not a footprint
edge the run makes no call that writes `Start0` or `End0`. -/
theorem TransferDataFromWindow_relative_points (env : Env) (d d' : DIALOG)
    (h : TransferDataFromWindow env d = some (true, d')) :
    (∀ m, d.m_moduleItem = some m →
        ∃ m', d'.m_moduleItem = some m' ∧
          m'.m_Start0 = m'.m_Start ∧ m'.m_End0 = m'.m_End ∧
          m'.m_Start = ⟨d.m_startX.GetValue, d.m_startY.GetValue⟩ ∧
          (m.m_Shape ≠ STROKE_T.S_CIRCLE →
            m'.m_End = ⟨d.m_endX.GetValue, d.m_endY.GetValue⟩) ∧
          (m.m_Shape = STROKE_T.S_CIRCLE →
            m'.m_End = ⟨d.m_startX.GetValue + d.m_endX.GetValue, d.m_startY.GetValue⟩)) ∧
      (d.m_moduleItem = none →
        ∃ added, d'.trace = d.trace ++ added ∧ ∀ e ∈ added, e.isRelativeSet = false) := by
  obtain ⟨item, pre, hm, hpre, rfl⟩ := TransferDataFromWindow_true env d d' h
  have hrep : replay pre d.aItem = d.aItem := replay_noSet pre d.aItem (fun e he => (hpre e he).1)
  constructor
  · intro m hmod
    have hI : d.aItem = .edge m := by
      cases hI : d.aItem <;> simp_all [DIALOG.m_moduleItem, BOARD_ITEM.asEDGE_MODULE]
    have hitem : item = m.toDRAWSEGMENT := by
      simp [DIALOG.m_item, hI, BOARD_ITEM.asDRAWSEGMENT] at hm
      exact hm.symm
    have hfin : (d.run (pre ++ commitCalls d item.m_Shape d.m_moduleItem.isSome
        d.m_LayerSelectionCtrl.selection)).aItem =
        .edge { m_Shape := m.m_Shape
                m_Start := ⟨d.m_startX.GetValue, d.m_startY.GetValue⟩
                m_End := stagedEnd m.m_Shape d
                m_Angle := if m.m_Shape = .S_ARC then d.m_AngleValue * 10 else m.m_Angle
                m_Width := d.m_thickness.GetValue
                m_Layer := d.m_LayerSelectionCtrl.selection
                m_Start0 := ⟨d.m_startX.GetValue, d.m_startY.GetValue⟩
                m_End0 := stagedEnd m.m_Shape d } := by
      rw [DIALOG.run_aItem, replay_append, hrep, hmod, hitem, hI]
      exact edge_after_commitCalls d m d.m_LayerSelectionCtrl.selection
    refine ⟨_, by rw [DIALOG.m_moduleItem, hfin]; rfl, rfl, rfl, rfl, ?_, ?_⟩
    · intro hs
      simp [stagedEnd, hs]
    · intro hs
      simp [stagedEnd, hs]
  · intro hmod
    refine ⟨_, DIALOG.run_trace _ _, ?_⟩
    intro e he
    rw [hmod] at he
    rcases List.mem_append.mp he with hp | hc
    · exact Event.isRelativeSet_of_not_isSet e (hpre e hp).1
    · exact commitCalls_noRelativeSet _ _ _ e hc

/-- The relative points after a commit at `edgeCircleDialog`, a footprint
circle, and the calls of a commit at `circleDialog`, a board circle. -/
theorem TransferDataFromWindow_relative_points_witness :
    (∃ d', TransferDataFromWindow envPlain edgeCircleDialog = some (true, d') ∧
        ∃ m', d'.m_moduleItem = some m' ∧
          m'.m_Start0 = m'.m_Start ∧ m'.m_End0 = m'.m_End ∧
          m'.m_Start = ⟨1000000, 0⟩ ∧ m'.m_End = ⟨1500000, 0⟩) ∧
      ∃ d', TransferDataFromWindow envPlain circleDialog = some (true, d') ∧
        ∃ added, d'.trace = circleDialog.trace ++ added ∧ ∀ e ∈ added, e.isRelativeSet = false :=
  ⟨⟨_, rfl,
      (((TransferDataFromWindow_relative_points envPlain edgeCircleDialog _ rfl).1
        (sampleEdge .S_CIRCLE) rfl).imp
        fun _ hx => ⟨hx.1, hx.2.1, hx.2.2.1, hx.2.2.2.1, hx.2.2.2.2.2 rfl⟩)⟩,
    ⟨_, rfl, (TransferDataFromWindow_relative_points envPlain circleDialog _ rfl).2 rfl⟩⟩

/-! ## Grid cell editor -/

/-- C12: `EndEdit` returns false and leaves the stored value and the string
behind `aNewVal` as they are when the control text equals the stored value;
otherwise it returns true, stores the control text and, when `aNewVal` is not
null, writes the control text behind it.  A second `EndEdit` after any
`EndEdit`, the control text unchanged, returns false. -/
theorem EndEdit_reports_change (e : GRID_CELL_TEXT_BUTTON) (aNewVal : Option String) :
    (e.comboValue = e.m_value → e.EndEdit aNewVal = (false, e, aNewVal)) ∧
      (e.comboValue ≠ e.m_value →
        e.EndEdit aNewVal =
          (true, { e with m_value := e.comboValue }, aNewVal.map (fun _ => e.comboValue))) ∧
      (∀ q, ((e.EndEdit aNewVal).2.1.EndEdit q).1 = false ∧
        (e.EndEdit aNewVal).2.1.comboValue = e.comboValue) := by
  refine ⟨?_, ?_, ?_⟩
  · intro h
    simp [GRID_CELL_TEXT_BUTTON.EndEdit, h]
  · intro h
    cases aNewVal <;> simp [GRID_CELL_TEXT_BUTTON.EndEdit, h]
  · intro q
    by_cases h : e.comboValue = e.m_value
    · simp [GRID_CELL_TEXT_BUTTON.EndEdit, h]
    · cases aNewVal <;> simp [GRID_CELL_TEXT_BUTTON.EndEdit, h]

/-- The report of `EndEdit` at `editedCell`, whose control text differs from
the stored value, and at the editor it leaves. -/
theorem EndEdit_reports_change_witness :
    editedCell.EndEdit (some "") = (true, { editedCell with m_value := "R2" }, some "R2") ∧
      ({ editedCell with m_value := "R2" } : GRID_CELL_TEXT_BUTTON).EndEdit (some "R2") =
        (false, { editedCell with m_value := "R2" }, some "R2") :=
  ⟨(EndEdit_reports_change editedCell (some "")).2.1 (by decide),
    (EndEdit_reports_change { editedCell with m_value := "R2" } (some "R2")).1 rfl⟩

/-! ## Library-tables dialog -/

/-- C14: with a content panel installed, `TransferDataToWindow` and
`TransferDataFromWindow` of the library-tables dialog return, and return true
exactly when the transfer of `DIALOG_SHIM` and the transfer of the content
panel both return true; when the transfer of `DIALOG_SHIM` fails the transfer
of the content panel is not called, otherwise it is called once, after it.  A
freshly constructed dialog has both change flags false. -/
theorem library_tables_transfer (shim : DIALOG_SHIM) (d : DIALOG_EDIT_LIBRARY_TABLES)
    (panel : wxPanel) (hp : d.m_contentPanel = some panel) :
    (∃ r d', d.TransferDataToWindow shim = some (r, d') ∧
        (r = true ↔ shim.TransferDataToWindow = true ∧ panel.TransferDataToWindow = true) ∧
        (shim.TransferDataToWindow = false →
          d'.calls = d.calls ++ [TableCall.DIALOG_SHIM_TransferDataToWindow]) ∧
        (shim.TransferDataToWindow = true →
          d'.calls = d.calls ++ [TableCall.DIALOG_SHIM_TransferDataToWindow,
            TableCall.contentPanel_TransferDataToWindow])) ∧
      (∃ r d', d.TransferDataFromWindow shim = some (r, d') ∧
        (r = true ↔ shim.TransferDataFromWindow = true ∧ panel.TransferDataFromWindow = true) ∧
        (shim.TransferDataFromWindow = false →
          d'.calls = d.calls ++ [TableCall.DIALOG_SHIM_TransferDataFromWindow]) ∧
        (shim.TransferDataFromWindow = true →
          d'.calls = d.calls ++ [TableCall.DIALOG_SHIM_TransferDataFromWindow,
            TableCall.contentPanel_TransferDataFromWindow])) ∧
      (∀ aTitle, (DIALOG_EDIT_LIBRARY_TABLES.create aTitle).m_GlobalTableChanged = false ∧
        (DIALOG_EDIT_LIBRARY_TABLES.create aTitle).m_ProjectTableChanged = false) := by
  refine ⟨?_, ?_, fun _ => ⟨rfl, rfl⟩⟩
  · cases hs : shim.TransferDataToWindow
    · refine ⟨false, { d with calls := d.calls ++ [TableCall.DIALOG_SHIM_TransferDataToWindow] },
        ?_, ?_, ?_, ?_⟩ <;> simp [DIALOG_EDIT_LIBRARY_TABLES.TransferDataToWindow, hs]
    · refine ⟨panel.TransferDataToWindow,
        { d with calls := d.calls ++ [TableCall.DIALOG_SHIM_TransferDataToWindow,
            TableCall.contentPanel_TransferDataToWindow] },
        ?_, ?_, ?_, ?_⟩ <;> simp [DIALOG_EDIT_LIBRARY_TABLES.TransferDataToWindow, hs, hp]
  · cases hs : shim.TransferDataFromWindow
    · refine ⟨false, { d with calls := d.calls ++ [TableCall.DIALOG_SHIM_TransferDataFromWindow] },
        ?_, ?_, ?_, ?_⟩ <;> simp [DIALOG_EDIT_LIBRARY_TABLES.TransferDataFromWindow, hs]
    · refine ⟨panel.TransferDataFromWindow,
        { d with calls := d.calls ++ [TableCall.DIALOG_SHIM_TransferDataFromWindow,
            TableCall.contentPanel_TransferDataFromWindow] },
        ?_, ?_, ?_, ?_⟩ <;> simp [DIALOG_EDIT_LIBRARY_TABLES.TransferDataFromWindow, hs, hp]

/-- The transfers at `tablesDialog` with a base class that succeeds: to the
window returns true, from the window returns false after calling the panel. -/
theorem library_tables_transfer_witness :
    tablesDialog.m_contentPanel = some ⟨true, false⟩ ∧
      (∃ r d', tablesDialog.TransferDataToWindow ⟨true, true⟩ = some (r, d') ∧
        (r = true ↔ (true = true ∧ true = true)) ∧
        (true = false →
          d'.calls = tablesDialog.calls ++ [TableCall.DIALOG_SHIM_TransferDataToWindow]) ∧
        (true = true →
          d'.calls = tablesDialog.calls ++ [TableCall.DIALOG_SHIM_TransferDataToWindow,
            TableCall.contentPanel_TransferDataToWindow])) ∧
      (∃ r d', tablesDialog.TransferDataFromWindow ⟨true, true⟩ = some (r, d') ∧
        (r = true ↔ (true = true ∧ false = true)) ∧
        (true = false →
          d'.calls = tablesDialog.calls ++ [TableCall.DIALOG_SHIM_TransferDataFromWindow]) ∧
        (true = true →
          d'.calls = tablesDialog.calls ++ [TableCall.DIALOG_SHIM_TransferDataFromWindow,
            TableCall.contentPanel_TransferDataFromWindow])) ∧
      (∀ aTitle, (DIALOG_EDIT_LIBRARY_TABLES.create aTitle).m_GlobalTableChanged = false ∧
        (DIALOG_EDIT_LIBRARY_TABLES.create aTitle).m_ProjectTableChanged = false) :=
  ⟨rfl, library_tables_transfer ⟨true, true⟩ tablesDialog ⟨true, false⟩ rfl⟩

end KiCad
